import Mathlib

/-!
Shallow embedding of the CRDT specification containers from
`src/ops_based.rs` and `src/state_based.rs`.

Embedding conventions:
* a `&mut T` receiver or parameter is embedded by explicit state passing —
  the function takes the current value and returns the updated value
  (paired with the ordinary return value when there is one);
* a `&self` / `&T` receiver or parameter is read-only and contributes no
  updated state; when a claim speaks about the state after such a call, the
  call is modelled as returning the (unchanged) receiver as its post-state;
* `Result<A, E>` is `Except E A`, `Option<T>` is `Option T`,
  `std::convert::Infallible` is `Empty`;
* the `i32` used by the in-repo instances is `Int` — the only operations
  involved (`max`, `<=`, the test closures' additions) do not overflow and
  the claims do not touch wrap-around behaviour;
* a Rust trait becomes a structure of its methods, and a `T: Trait<T>`
  bound becomes an extra (possibly unused, exactly as in the Rust `impl`
  blocks) instance argument; the `FnOnce`-bounded associated closure types
  `Query`, `AtSource`, `Downstream`, `Update` become the corresponding
  function types.
-/

namespace ops_based

/-- Rust trait `OpsBased<T>` from `src/ops_based.rs`: method `query`
(receiver `&self`, closure `Query = FnOnce(&T) -> Option<T>`) and method
`update` (receiver `&mut self`, so it also returns the updated value;
`AtSource = FnOnce(&mut T, &Args) -> Option<T>` is embedded as
`T → Args → Option T × T`, `Downstream = FnOnce(&mut T, &Args)` as
`T → Args → T`). -/
structure OpsBased (T Args E : Type) where
  query : T → (T → Option T) → Except E (Option T)
  update : T → Args → (T → Args → Option T × T) → (T → Args → T) →
    Except E (Option T) × T

/-- Struct `Payload<T>` from `src/ops_based.rs`. -/
structure Payload (T : Type) where
  initial : T
deriving DecidableEq

/-- `Payload::new`. -/
def Payload.new {T : Type} (initial : T) : Payload T := ⟨initial⟩

/-- `Payload::query` (from the `impl<T: OpsBased<T>> Payload<T>` block):
`self.initial.query(query)`. The receiver is `&self`, so the post-state
(second component) is the unchanged payload. -/
def Payload.query {T Args E : Type} (inst : OpsBased T Args E) (p : Payload T)
    (q : T → Option T) : Except E (Option T) × Payload T :=
  (inst.query p.initial q, p)

/-- `Payload::update` (from the `impl<T: OpsBased<T>> Payload<T>` block):
`let res = at_source(&mut self.initial, args); downstream(&mut self.initial,
args); Ok(res)`. The receiver is `&mut self`, so the call returns the result
paired with the payload after both closures ran. The `inst` argument mirrors
the `T: OpsBased<T>` bound on the impl block; the method body does not use
the trait methods. -/
def Payload.update {T Args E : Type} (inst : OpsBased T Args E) (p : Payload T)
    (args : Args) (at_source : T → Args → Option T × T)
    (downstream : T → Args → T) : Except E (Option T) × Payload T :=
  let r := at_source p.initial args
  let s := downstream r.2 args
  (Except.ok r.1, ⟨s⟩)

/-- The `impl OpsBased<i32> for i32` from the test module of
`src/ops_based.rs`: `query` applies the closure to `self`; `update` runs
`at_source` then `downstream` on `self` and returns `Ok(res)`;
`Error = Infallible`. -/
def i32OpsBased : OpsBased Int Int Empty where
  query s q := Except.ok (q s)
  update s args at_source downstream :=
    let r := at_source s args
    (Except.ok r.1, downstream r.2 args)

end ops_based

namespace state_based

/-- Rust trait `Semilattice` from `src/state_based.rs`: `compare` and
`merge`, both over `&self` / `&Self` (read-only). -/
structure Semilattice (T : Type) where
  compare : T → T → Bool
  merge : T → T → T

/-- Rust trait `StateBased<T>` from `src/state_based.rs`: `query`
(receiver `&self`, `Query = FnOnce(&T) -> Option<T>`) and `update`
(receiver `&mut self`, `Update = FnOnce(&mut T) -> Option<T>` embedded as
`T → Option T × T`). -/
structure StateBased (T E : Type) where
  query : T → (T → Option T) → Except E (Option T)
  update : T → (T → Option T × T) → Except E (Option T) × T

/-- Struct `Payload<T>` from `src/state_based.rs`. -/
structure Payload (T : Type) where
  initial : T
deriving DecidableEq

/-- `Payload::query` (from the `impl<T: Semilattice + StateBased<T>>
Payload<T>` block): `Ok(query(&self.initial))`. The receiver is `&self`, so
the post-state is the unchanged payload. The `sl` and `inst` arguments
mirror the trait bounds on the impl block; the method body uses neither. -/
def Payload.query {T E : Type} (sl : Semilattice T) (inst : StateBased T E)
    (p : Payload T) (q : T → Option T) : Except E (Option T) × Payload T :=
  (Except.ok (q p.initial), p)

/-- `Payload::update` (from the same impl block):
`Ok(update(&mut self.initial))`. The receiver is `&mut self`, so the call
returns the closure's result paired with the mutated payload. -/
def Payload.update {T E : Type} (sl : Semilattice T) (inst : StateBased T E)
    (p : Payload T) (u : T → Option T × T) : Except E (Option T) × Payload T :=
  let r := u p.initial
  (Except.ok r.1, ⟨r.2⟩)

/-- The `impl Semilattice for i32` from the test module of
`src/state_based.rs`: `compare` is `self <= other`, `merge` is
`max(*self, *other)`. -/
def i32Semilattice : Semilattice Int where
  compare x y := decide (x ≤ y)
  merge x y := max x y

/-- The `impl StateBased<i32> for i32` from the test module of
`src/state_based.rs`: both methods apply the closure to `self`;
`Error = Infallible`. -/
def i32StateBased : StateBased Int Empty where
  query s q := Except.ok (q s)
  update s u :=
    let r := u s
    (Except.ok r.1, r.2)

end state_based

/-- An operation-based instance for `Int` whose trait-level `update` has
behaviour of its own (it ignores the closures and reports `Some 99`): the
container's `update` never calls the trait-level `update`, so the two can
disagree. Used to separate the container from the trait in refinement
claims. -/
def constOpsBased : ops_based.OpsBased Int Int Empty where
  query s q := Except.ok (q s)
  update s _ _ _ := (Except.ok (some 99), s)

/-- C8: the i32 `Semilattice` instance's `merge` (= `max`) is idempotent,
commutative and associative. -/
theorem c8_i32_merge_semilattice_laws (x y z : Int) :
    state_based.i32Semilattice.merge x x = x ∧
    state_based.i32Semilattice.merge x y = state_based.i32Semilattice.merge y x ∧
    state_based.i32Semilattice.merge (state_based.i32Semilattice.merge x y) z
      = state_based.i32Semilattice.merge x (state_based.i32Semilattice.merge y z) :=
  ⟨max_self x, max_comm x y, max_assoc x y z⟩

/-- C9: for the i32 `Semilattice` instance, `compare x y` holds exactly when
`merge x y = y`. -/
theorem c9_i32_compare_characterizes_merge (x y : Int) :
    state_based.i32Semilattice.compare x y = true ↔
    state_based.i32Semilattice.merge x y = y := by
  simp [state_based.i32Semilattice, max_eq_right_iff]

/-- C10: the operation-based `Payload::update` runs `at_source` first on the
owned value, then `downstream` on the resulting value, hands the same `args`
to both closures, and returns `Ok` of exactly the `at_source` result, which
is computed from the pre-downstream state. -/
theorem c10_update_two_phase_order {T Args E : Type}
    (inst : ops_based.OpsBased T Args E) (p : ops_based.Payload T)
    (args : Args) (at_source : T → Args → Option T × T)
    (downstream : T → Args → T) :
    ops_based.Payload.update inst p args at_source downstream
      = (Except.ok (at_source p.initial args).1,
         ⟨downstream (at_source p.initial args).2 args⟩) := rfl

/-- C7: for both containers, `Payload::query` leaves the owned payload value
unchanged: the receiver is `&self` and the post-state of the call is the
payload it started from. -/
theorem c7_query_no_side_effect {T Args E S E2 : Type}
    (inst : ops_based.OpsBased T Args E) (p : ops_based.Payload T)
    (q : T → Option T) (sl : state_based.Semilattice S)
    (inst2 : state_based.StateBased S E2) (p2 : state_based.Payload S)
    (q2 : S → Option S) :
    (ops_based.Payload.query inst p q).2 = p ∧
    (state_based.Payload.query sl inst2 p2 q2).2 = p2 :=
  ⟨rfl, rfl⟩

/-- C6: the only container method that invokes a fallible method of the
underlying payload is the operation-based `Payload::query`, and it returns
the payload's result verbatim — in particular any `Err(e)` is propagated
unchanged, never swallowed or replaced. The other three container methods
run only the caller-supplied closures, whose types cannot signal a typed
error, so those calls always return `Ok` and no payload error ever arises
(or could be swallowed) in them. -/
theorem c6_error_propagated_unchanged {T Args E S E2 : Type}
    (inst : ops_based.OpsBased T Args E) (p : ops_based.Payload T)
    (q : T → Option T) (args : Args)
    (at_source : T → Args → Option T × T) (downstream : T → Args → T)
    (sl : state_based.Semilattice S) (inst2 : state_based.StateBased S E2)
    (p2 : state_based.Payload S) (q2 : S → Option S) (u : S → Option S × S) :
    (ops_based.Payload.query inst p q).1 = inst.query p.initial q ∧
    (ops_based.Payload.update inst p args at_source downstream).1
      = Except.ok (at_source p.initial args).1 ∧
    (state_based.Payload.query sl inst2 p2 q2).1 = Except.ok (q2 p2.initial) ∧
    (state_based.Payload.update sl inst2 p2 u).1 = Except.ok (u p2.initial).1 :=
  ⟨rfl, rfl, rfl, rfl⟩

/-- C1 counterexample: with an `at_source` that returns `None` (precondition
failed) and leaves the value alone, and a `downstream` that adds `args`,
`Payload::update` from state `0` with `args = 1` returns `Ok(None)` but the
payload ends at `1`, not `0`: the container still ran `downstream`, so the
state did not stay unchanged as the claim requires. -/
theorem c1_counterexample :
    ops_based.Payload.update ops_based.i32OpsBased ⟨0⟩ 1
      (fun s _ => (none, s)) (fun s a => s + a)
      = (Except.ok none, ⟨1⟩) ∧
    (⟨1⟩ : ops_based.Payload Int) ≠ ⟨0⟩ :=
  ⟨rfl, by decide⟩

/-- C1 amended: when the `at_source` phase returns `None`, `Payload::update`
does return `Ok(None)` (no operation), but the container still invokes the
`downstream` closure on the post-`at_source` value — aborting versus
no-op-ing on a failed precondition is left to the concrete closures, so the
state is unchanged only when they leave it unchanged. -/
theorem c1_amended_none_still_runs_downstream {T Args E : Type}
    (inst : ops_based.OpsBased T Args E) (p : ops_based.Payload T)
    (args : Args) (at_source : T → Args → Option T × T)
    (downstream : T → Args → T)
    (h : (at_source p.initial args).1 = none) :
    ops_based.Payload.update inst p args at_source downstream
      = (Except.ok none, ⟨downstream (at_source p.initial args).2 args⟩) := by
  have h0 : ops_based.Payload.update inst p args at_source downstream
      = (Except.ok (at_source p.initial args).1,
         ⟨downstream (at_source p.initial args).2 args⟩) := rfl
  rw [h0, h]

/-- Witness for C1 amended at a concrete input. -/
theorem c1_amended_witness :
    ops_based.Payload.update ops_based.i32OpsBased ⟨0⟩ 1
      (fun s _ => (none, s)) (fun s a => s + a)
      = (Except.ok none, ⟨1⟩) :=
  c1_amended_none_still_runs_downstream ops_based.i32OpsBased ⟨0⟩ 1
    (fun s _ => (none, s)) (fun s a => s + a) rfl

/-- C2 counterexample: an `at_source` closure that increments the value it
receives by mutable reference does change the payload state; with the
identity `downstream`, `Payload::update` from state `0` ends at `1`, so the
state immediately after the `at_source` phase differed from the state
before it. The container hands `at_source` the owned value mutably and
keeps whatever mutation it performs. -/
theorem c2_counterexample :
    ops_based.Payload.update ops_based.i32OpsBased ⟨0⟩ 0
      (fun s _ => (some s, s + 1)) (fun s _ => s)
      = (Except.ok (some 0), ⟨1⟩) ∧
    (⟨1⟩ : ops_based.Payload Int) ≠ ⟨0⟩ :=
  ⟨rfl, by decide⟩

/-- C2 amended: side-effect-freedom of `at_source` is an unchecked contract
on the supplied closure, not enforced by the container (whose `AtSource`
type takes `&mut T`): for every `at_source` closure whose state component is
the identity, the state after the `at_source` phase equals the state before
it, and `downstream` therefore sees the original value. -/
theorem c2_amended_at_source_pure_if_closure_pure {T Args E : Type}
    (inst : ops_based.OpsBased T Args E) (p : ops_based.Payload T)
    (args : Args) (at_source : T → Args → Option T × T)
    (downstream : T → Args → T)
    (h : ∀ s a, (at_source s a).2 = s) :
    ops_based.Payload.update inst p args at_source downstream
      = (Except.ok (at_source p.initial args).1,
         ⟨downstream p.initial args⟩) := by
  have h0 : ops_based.Payload.update inst p args at_source downstream
      = (Except.ok (at_source p.initial args).1,
         ⟨downstream (at_source p.initial args).2 args⟩) := rfl
  rw [h0, h]

/-- Witness for C2 amended at a concrete input. -/
theorem c2_amended_witness :
    ops_based.Payload.update ops_based.i32OpsBased ⟨0⟩ 1
      (fun s a => (some (s + a), s)) (fun s a => s + a)
      = (Except.ok (some 1), ⟨1⟩) :=
  c2_amended_at_source_pure_if_closure_pure ops_based.i32OpsBased ⟨0⟩ 1
    (fun s a => (some (s + a), s)) (fun s a => s + a) (fun _ _ => rfl)

/-- C3 counterexample: the state-based container applies the update
closure's mutation verbatim; with the i32 instance (`compare` is `<=`), an
update closure that decrements takes the payload from `0` to `-1`, and
`compare 0 (-1)` is `false` — the post-update value is not ≥ the pre-update
value. -/
theorem c3_counterexample :
    state_based.Payload.update state_based.i32Semilattice
      state_based.i32StateBased ⟨0⟩ (fun v => (some (v - 1), v - 1))
      = (Except.ok (some (-1)), ⟨-1⟩) ∧
    state_based.i32Semilattice.compare 0 (-1) = false :=
  ⟨rfl, by decide⟩

/-- C3 amended: lattice-monotone strengthening is an unchecked contract on
the update closure, not enforced by the container: the container installs
exactly the closure's new value, so the post-update value is ≥ the
pre-update value under `compare` precisely when the closure itself is
inflationary. For every closure whose new value dominates its input, the
post-update payload dominates the pre-update payload. -/
theorem c3_amended_update_strengthens_if_closure_does {T E : Type}
    (sl : state_based.Semilattice T) (inst : state_based.StateBased T E)
    (p : state_based.Payload T) (u : T → Option T × T)
    (h : ∀ v, sl.compare v (u v).2 = true) :
    sl.compare p.initial
      (state_based.Payload.update sl inst p u).2.initial = true :=
  h p.initial

/-- Witness for C3 amended at a concrete input. -/
theorem c3_amended_witness :
    state_based.i32Semilattice.compare 0
      (state_based.Payload.update state_based.i32Semilattice
        state_based.i32StateBased ⟨0⟩
        (fun v => (some (v + 1), v + 1))).2.initial = true :=
  c3_amended_update_strengthens_if_closure_does state_based.i32Semilattice
    state_based.i32StateBased ⟨0⟩ (fun v => (some (v + 1), v + 1))
    (fun v => by simp [state_based.i32Semilattice])

/-- C4 counterexample: `at_source` returns the operation `Some 100`, while
`downstream` adds whatever second argument it is handed to the state. From
state `0` with `args = 1` the payload ends at `1` = `0 + args`, not
`100` = `0 + operation`: the container handed `downstream` the original
`args`, not the operation computed by `at_source`. -/
theorem c4_counterexample :
    ops_based.Payload.update ops_based.i32OpsBased ⟨0⟩ 1
      (fun s _ => (some 100, s)) (fun s a => s + a)
      = (Except.ok (some 100), ⟨1⟩) ∧
    (⟨1⟩ : ops_based.Payload Int) ≠ ⟨100⟩ :=
  ⟨rfl, by decide⟩

/-- C4 amended: the value handed to the `downstream` closure beyond the
current state is the original `Args` — the very same `args` that were handed
to `at_source` (the `Downstream` type is `FnOnce(&mut T, &Args)`); the
operation returned by `at_source` is only returned to the caller, not fed to
`downstream`. -/
theorem c4_amended_downstream_receives_args {T Args E : Type}
    (inst : ops_based.OpsBased T Args E) (p : ops_based.Payload T)
    (args : Args) (at_source : T → Args → Option T × T)
    (downstream : T → Args → T) :
    (ops_based.Payload.update inst p args at_source downstream).2
      = ⟨downstream (at_source p.initial args).2 args⟩ := rfl

/-- C5 counterexample: an instance whose trait-level `update` reports
`Some 99` regardless of the closures. The container's `update` with an
`at_source` reporting `Some (s + args)` returns `Ok(Some 1)` from state `0`
with `args = 1`, while the trait-level `update` on the same value and
closures returns `Ok(Some 99)` — the container does not delegate `update` to
the trait, so the two differ. -/
theorem c5_counterexample :
    (ops_based.Payload.update constOpsBased ⟨0⟩ 1
        (fun s a => (some (s + a), s)) (fun s a => s + a)).1
      = Except.ok (some 1) ∧
    (constOpsBased.update 0 1
        (fun s a => (some (s + a), s)) (fun s a => s + a)).1
      = Except.ok (some 99) ∧
    (Except.ok (some 1) : Except Empty (Option Int)) ≠ Except.ok (some 99) := by
  refine ⟨rfl, rfl, ?_⟩
  simp

/-- C5 amended: only the operation-based container's `query` delegates to
the trait-level method. The operation-based `update` and the state-based
`query` and `update` apply the supplied closures to the owned value
directly, so they agree with the trait-level methods exactly when the trait
implementation is itself direct closure application (as both in-repo i32
instances are) — hypotheses `hou`, `hsq`, `hsu` state that directness at the
relevant value. -/
theorem c5_amended_delegation {T Args E S E2 : Type}
    (inst : ops_based.OpsBased T Args E) (p : ops_based.Payload T)
    (q : T → Option T) (args : Args)
    (at_source : T → Args → Option T × T) (downstream : T → Args → T)
    (sl : state_based.Semilattice S) (inst2 : state_based.StateBased S E2)
    (p2 : state_based.Payload S) (q2 : S → Option S) (u : S → Option S × S)
    (hou : inst.update p.initial args at_source downstream
      = (Except.ok (at_source p.initial args).1,
         downstream (at_source p.initial args).2 args))
    (hsq : inst2.query p2.initial q2 = Except.ok (q2 p2.initial))
    (hsu : inst2.update p2.initial u
      = (Except.ok (u p2.initial).1, (u p2.initial).2)) :
    (ops_based.Payload.query inst p q).1 = inst.query p.initial q ∧
    ((ops_based.Payload.update inst p args at_source downstream).1,
      (ops_based.Payload.update inst p args at_source downstream).2.initial)
      = inst.update p.initial args at_source downstream ∧
    (state_based.Payload.query sl inst2 p2 q2).1 = inst2.query p2.initial q2 ∧
    ((state_based.Payload.update sl inst2 p2 u).1,
      (state_based.Payload.update sl inst2 p2 u).2.initial)
      = inst2.update p2.initial u := by
  refine ⟨rfl, ?_, ?_, ?_⟩
  · rw [hou]; rfl
  · rw [hsq]; rfl
  · rw [hsu]; rfl

/-- Witness for C5 amended at concrete inputs: both i32 instances are direct
closure applications, so every directness hypothesis holds definitionally. -/
theorem c5_amended_witness :
    (ops_based.Payload.query ops_based.i32OpsBased ⟨0⟩
        (fun v => some (v + 1))).1
      = ops_based.i32OpsBased.query 0 (fun v => some (v + 1)) ∧
    ((ops_based.Payload.update ops_based.i32OpsBased ⟨0⟩ 1
        (fun s a => (some (s + a), s)) (fun s a => s + a)).1,
      (ops_based.Payload.update ops_based.i32OpsBased ⟨0⟩ 1
        (fun s a => (some (s + a), s)) (fun s a => s + a)).2.initial)
      = ops_based.i32OpsBased.update 0 1
          (fun s a => (some (s + a), s)) (fun s a => s + a) ∧
    (state_based.Payload.query state_based.i32Semilattice
        state_based.i32StateBased ⟨2⟩ (fun v => some v)).1
      = state_based.i32StateBased.query 2 (fun v => some v) ∧
    ((state_based.Payload.update state_based.i32Semilattice
        state_based.i32StateBased ⟨2⟩ (fun v => (some (v + 1), v + 1))).1,
      (state_based.Payload.update state_based.i32Semilattice
        state_based.i32StateBased ⟨2⟩ (fun v => (some (v + 1), v + 1))).2.initial)
      = state_based.i32StateBased.update 2 (fun v => (some (v + 1), v + 1)) :=
  c5_amended_delegation ops_based.i32OpsBased ⟨0⟩ (fun v => some (v + 1)) 1
    (fun s a => (some (s + a), s)) (fun s a => s + a)
    state_based.i32Semilattice state_based.i32StateBased ⟨2⟩
    (fun v => some v) (fun v => (some (v + 1), v + 1)) rfl rfl rfl
